import Mathlib

/-!
Verification of the pulumi plugin command layer
(`src/plugins/pulumi/commands.ts`).

The development shallowly embeds the command layer: the command
specification table (`pulumiCommandSpecs`), the command factory
(`makePulumiCommand` and its handler), and the dependency-closure task
(`PulumiPluginCommandTask` with `resolveDependencies` and `process`).

External collaborators (the dependency graph, the execution engine, the
pulumi helper calls from `./helpers` and `./handlers`, the filesystem, and
garden core services) are modelled as explicit record-of-functions
environments (`ConfigGraph`, `Garden`, `PulumiTool`): the code under
verification only calls them, so their behaviour is a parameter.
Asynchrony is flattened: each effectful step is an `Except`-valued call,
and `Bluebird.map` over the target services is modelled as a sequential
traversal that fails as soon as one element fails (which matches the
observable contract used here: the aggregate promise rejects and the
handler never reaches task submission).  Log emission is modelled as a
returned trace of `LogLine` / `HandlerEvent` values; chalk colouring is
dropped, message text is kept.
-/

/-- The `spec` field of a pulumi module (`PulumiModule` in `./config`);
only `allowDestroy` is read by this layer (destroy run function). -/
structure PulumiModuleSpec where
  allowDestroy : Bool
deriving Repr, DecidableEq

/-- A garden module as seen by this layer: a name, a module `type` tag
(this layer cares about type `"pulumi"`), and the pulumi spec. -/
structure GardenModule where
  name : String
  type : String
  spec : PulumiModuleSpec
deriving Repr, DecidableEq

/-- A garden service: name, owning module, and version stamp. -/
structure GardenService where
  name : String
  module : GardenModule
  version : String
deriving Repr, DecidableEq

/-- Provider configuration; this layer reads `pluginTaskConcurrencyLimit`. -/
structure PulumiProviderConfig where
  pluginTaskConcurrencyLimit : Nat
deriving Repr, DecidableEq

/-- The pulumi provider. -/
structure PulumiProvider where
  config : PulumiProviderConfig
deriving Repr, DecidableEq

/-- A plugin context.  `forModule` records which module's template context
(`ModuleConfigContext.fromModule`) the context was built from, i.e. which
module the context is scoped to. -/
structure PluginContext where
  provider : PulumiProvider
  forModule : GardenModule
deriving Repr, DecidableEq

/-- `PulumiParamsWithService`: the parameter record threaded to stack
selection and to every run function (`PulumiParams` plus the `service`
field, as in the source interface). -/
structure PulumiParamsWithService where
  ctx : PluginContext
  provider : PulumiProvider
  module : GardenModule
  service : GardenService
deriving Repr, DecidableEq

/-- Errors raised by fallible external calls. -/
structure PulumiError where
  message : String
deriving Repr, DecidableEq

/-- Observable external calls made by run functions and by `process`. -/
inductive PulumiEffect where
  | selectStackCall (moduleName : String)
  | previewStackCall (moduleName : String)
  | cancelUpdateCall (moduleName : String)
  | refreshResourcesCall (moduleName : String)
  | reimportStackCall (moduleName : String)
  | deletePulumiServiceCall (moduleName : String)
deriving Repr, DecidableEq

/-- A run function: given the resolved per-service parameters it performs
external calls (returned as a trace) and may fail. -/
def PulumiRunFn : Type :=
  PulumiParamsWithService → List PulumiEffect × Except PulumiError Unit

/-- Outcomes of the external pulumi helper calls (`./helpers`,
`./handlers`) and of the filesystem, which are out of scope and appear
here as an environment of fallible functions. -/
structure PulumiTool where
  selectStack : PulumiParamsWithService → Except PulumiError Unit
  previewStack : PulumiParamsWithService → Except PulumiError Unit
  cancelUpdate : PulumiParamsWithService → Except PulumiError Unit
  refreshResources : PulumiParamsWithService → Except PulumiError Unit
  reimportStack : PulumiParamsWithService → Except PulumiError Unit
  deletePulumiService : PulumiParamsWithService → Except PulumiError Unit
  getPreviewDirPath : PluginContext → String
  emptyDir : String → Except PulumiError Unit

/-- A command specification from the table: name, description, optional
before-hook, and run function. -/
structure PulumiCommandSpec where
  name : String
  commandDescription : String
  beforeFn : Option (PluginContext → Except PulumiError Unit)
  runFn : PulumiRunFn

/-- Entry `preview` of the command table: its before-hook clears the
preview directory (`emptyDir` of `getPreviewDirPath`), and its run
function calls `previewStack`. -/
def previewCommandSpec (tool : PulumiTool) : PulumiCommandSpec :=
  { name := "preview"
    commandDescription := "pulumi preview"
    beforeFn := some fun ctx => tool.emptyDir (tool.getPreviewDirPath ctx)
    runFn := fun params =>
      ([PulumiEffect.previewStackCall params.module.name], tool.previewStack params) }

/-- Entry `cancel` of the command table. -/
def cancelCommandSpec (tool : PulumiTool) : PulumiCommandSpec :=
  { name := "cancel"
    commandDescription := "pulumi cancel"
    beforeFn := none
    runFn := fun params =>
      ([PulumiEffect.cancelUpdateCall params.module.name], tool.cancelUpdate params) }

/-- Entry `refresh` of the command table. -/
def refreshCommandSpec (tool : PulumiTool) : PulumiCommandSpec :=
  { name := "refresh"
    commandDescription := "pulumi refresh"
    beforeFn := none
    runFn := fun params =>
      ([PulumiEffect.refreshResourcesCall params.module.name], tool.refreshResources params) }

/-- Entry `reimport` of the command table. -/
def reimportCommandSpec (tool : PulumiTool) : PulumiCommandSpec :=
  { name := "reimport"
    commandDescription := "pulumi export | pulumi import"
    beforeFn := none
    runFn := fun params =>
      ([PulumiEffect.reimportStackCall params.module.name], tool.reimportStack params) }

/-- Entry `destroy` of the command table: the run function calls
`deletePulumiService` only when `module.spec.allowDestroy` is set, and
otherwise does nothing and succeeds. -/
def destroyCommandSpec (tool : PulumiTool) : PulumiCommandSpec :=
  { name := "destroy"
    commandDescription := "pulumi destroy"
    beforeFn := none
    runFn := fun params =>
      if params.module.spec.allowDestroy then
        ([PulumiEffect.deletePulumiServiceCall params.module.name],
          tool.deletePulumiService params)
      else ([], Except.ok ()) }

/-- The command specification table (`pulumiCommandSpecs`), parametrised
by the external pulumi tool environment.  Each entry mirrors one element
of the source array; the run functions record the helper call they make
and return its outcome. -/
def pulumiCommandSpecs (tool : PulumiTool) : List PulumiCommandSpec :=
  [ previewCommandSpec tool,
    cancelCommandSpec tool,
    refreshCommandSpec tool,
    reimportCommandSpec tool,
    destroyCommandSpec tool ]

/-- The dependency graph snapshot (external `ConfigGraph`), modelled by
its read queries: the module list, the service list, and the direct and
recursive deploy-dependency relations keyed by service name. -/
structure ConfigGraph where
  modules : List GardenModule
  services : List GardenService
  deployDeps : String → List GardenService
  deployDepsRecursive : String → List GardenService

/-- `graph.getModules()`. -/
def ConfigGraph.getModules (g : ConfigGraph) : List GardenModule :=
  g.modules

/-- `graph.getServices(names?)`: all services when no names are given,
otherwise the services whose name occurs among the given names. -/
def ConfigGraph.getServices (g : ConfigGraph) (names : Option (List String)) :
    List GardenService :=
  match names with
  | none => g.services
  | some ns => g.services.filter fun s => ns.contains s.name

/-- Result record of `graph.getDependencies` (only the `deploy` field is
read by this layer). -/
structure DependencyResult where
  deploy : List GardenService

/-- `graph.getDependencies` for node type `deploy`: the (direct or
recursive) deploy dependencies of the named service, filtered by the
given predicate. -/
def ConfigGraph.getDependencies (g : ConfigGraph) (name : String)
    (recursive : Bool) (filter : GardenService → Bool) : DependencyResult :=
  ⟨((if recursive then g.deployDepsRecursive else g.deployDeps) name).filter filter⟩

/-- The dependency-closure task (`PulumiPluginCommandTask`).  The `garden`
and `log` references held by the source class are not part of the task's
own behaviour modelled here (the engine and the log sink are external),
so they are omitted; `force`, `version` and `concurrencyLimit` are the
fields the source constructor passes to `super` or sets on `this`. -/
structure PulumiPluginCommandTask where
  graph : ConfigGraph
  service : GardenService
  commandName : String
  commandDescription : String
  runFn : PulumiRunFn
  pulumiParams : PulumiParamsWithService
  force : Bool
  version : String
  concurrencyLimit : Nat

/-- The source constructor: stores the fields, passes `force: false` and
`version: service.version` to the base class, and sets the concurrency
limit from `pulumiParams.ctx.provider.config.pluginTaskConcurrencyLimit`. -/
def PulumiPluginCommandTask.construct (graph : ConfigGraph)
    (service : GardenService) (commandName commandDescription : String)
    (runFn : PulumiRunFn) (pulumiParams : PulumiParamsWithService) :
    PulumiPluginCommandTask :=
  { graph := graph
    service := service
    commandName := commandName
    commandDescription := commandDescription
    runFn := runFn
    pulumiParams := pulumiParams
    force := false
    version := service.version
    concurrencyLimit := pulumiParams.ctx.provider.config.pluginTaskConcurrencyLimit }

/-- `getName()`: the target service's name. -/
def PulumiPluginCommandTask.getName (t : PulumiPluginCommandTask) : String :=
  t.service.name

/-- `getDescription()`: display string (chalk colouring dropped). -/
def PulumiPluginCommandTask.getDescription (t : PulumiPluginCommandTask) : String :=
  "running " ++ t.commandName ++ " for " ++ t.service.name

/-- `resolveDependencies()`: collect the names of all pulumi modules
(module names equal service names for pulumi modules), query the direct
(`recursive: false`) deploy dependencies of the target service filtered
to those names, and wrap each surviving dependency service in a new task
sharing the command name, description and run function, with the parent's
`pulumiParams` spread and only the `module` field replaced by the
dependency's module. -/
def PulumiPluginCommandTask.resolveDependencies (t : PulumiPluginCommandTask) :
    List PulumiPluginCommandTask :=
  let pulumiServiceNames :=
    ((t.graph.getModules.filter fun m => m.type == "pulumi").map fun m => m.name)
  let deps := t.graph.getDependencies t.getName false
    (fun depNode => pulumiServiceNames.contains depNode.name)
  deps.deploy.map fun depService =>
    PulumiPluginCommandTask.construct t.graph depService t.commandName
      t.commandDescription t.runFn
      { t.pulumiParams with module := depService.module }

/-- Status carried by an emitted log line. -/
inductive LogStatus where
  | active
  | error
  | success
deriving Repr, DecidableEq

/-- One emitted status line: the section it is tagged with, its message
text, and its status. -/
structure LogLine where
  sectionName : String
  msg : String
  status : LogStatus
deriving Repr, DecidableEq

/-- Output of one `process()` call: the emitted status lines, the external
calls performed, and the task result (`ok ()` stands for the empty object
returned on success; a thrown error is `error`). -/
structure ProcessOutput where
  lines : List LogLine
  effects : List PulumiEffect
  result : Except PulumiError Unit
deriving Repr

/-- `process()`: emit the start line tagged with the target name, select
the stack, run the command's run function; on any failure emit the
failure line (whose message carries the elapsed duration) and re-raise
the error; on success emit the success line and return the empty result.
`durationSec` stands for the elapsed duration reported by
`log.getDuration(1)`. -/
def PulumiPluginCommandTask.process (t : PulumiPluginCommandTask)
    (tool : PulumiTool) (durationSec : Nat) : ProcessOutput :=
  let startLine : LogLine :=
    ⟨t.getName, "Running " ++ t.commandDescription, LogStatus.active⟩
  let failLine : LogLine :=
    ⟨t.getName, "Failed! (took " ++ toString durationSec ++ " sec)", LogStatus.error⟩
  let successLine : LogLine :=
    ⟨t.getName, "Success (took " ++ toString durationSec ++ " sec)", LogStatus.success⟩
  match tool.selectStack t.pulumiParams with
  | Except.error err =>
    ⟨[startLine, failLine],
      [PulumiEffect.selectStackCall t.pulumiParams.module.name],
      Except.error err⟩
  | Except.ok _ =>
    match t.runFn t.pulumiParams with
    | (runEffects, Except.error err) =>
      ⟨[startLine, failLine],
        PulumiEffect.selectStackCall t.pulumiParams.module.name :: runEffects,
        Except.error err⟩
    | (runEffects, Except.ok _) =>
      ⟨[startLine, successLine],
        PulumiEffect.selectStackCall t.pulumiParams.module.name :: runEffects,
        Except.ok ()⟩

/-- Per-task outcome map returned by the execution engine. -/
abbrev EngineOutcome : Type :=
  List (String × Bool)

/-- The garden core services consumed by the handler: the config graph
snapshot (`garden.getConfigGraph`, fallible), per-module plugin-context
resolution (`ModuleConfigContext.fromModule` followed by
`garden.getPluginContext`, folded into one fallible call keyed by the
provider and the module), and the execution engine
(`garden.processTasks`). -/
structure Garden where
  configGraph : Except PulumiError ConfigGraph
  getPluginContext : PulumiProvider → GardenModule → Except PulumiError PluginContext
  processTasks : List PulumiPluginCommandTask → EngineOutcome

/-- The parameters a command handler is invoked with. -/
structure PluginCommandParams where
  garden : Garden
  ctx : PluginContext
  args : List String

/-- The handler's returned value: `result := []` models the literal
`{ result: {} }` the source returns (an empty outcome map, not the
engine's aggregate). -/
structure CommandResult where
  result : EngineOutcome

/-- Observable steps of one handler invocation. -/
inductive HandlerEvent where
  | resolvedGraph
  | ranBeforeFn
  | builtTask (serviceName : String)
  | submittedBatch (taskNames : List String) (outcome : EngineOutcome)
deriving Repr, DecidableEq

/-- `args.length === 0 ? undefined : args`. -/
def toServiceNames (args : List String) : Option (List String) :=
  if args.length == 0 then none else some args

/-- Task construction loop of the handler (`Bluebird.map` over the target
services): for each service, resolve its plugin context (fallible),
assemble its `pulumiParams`, and construct its root task.  A failure for
any element fails the whole traversal (the aggregate promise rejects). -/
def buildTasks (garden : Garden) (provider : PulumiProvider)
    (graph : ConfigGraph) (commandName commandDescription : String)
    (runFn : PulumiRunFn) :
    List GardenService →
    List HandlerEvent × Except PulumiError (List PulumiPluginCommandTask)
  | [] => ([], Except.ok [])
  | s :: rest =>
    match garden.getPluginContext provider s.module with
    | Except.error e => ([], Except.error e)
    | Except.ok ctxForModule =>
      let pulumiParams : PulumiParamsWithService :=
        { ctx := ctxForModule
          provider := provider
          module := s.module
          service := s }
      let task := PulumiPluginCommandTask.construct graph s commandName
        commandDescription runFn pulumiParams
      match buildTasks garden provider graph commandName commandDescription runFn rest with
      | (evs, Except.error e) => (HandlerEvent.builtTask s.name :: evs, Except.error e)
      | (evs, Except.ok tasks) =>
        (HandlerEvent.builtTask s.name :: evs, Except.ok (task :: tasks))

/-- The handler produced by the command factory: resolve the graph
snapshot once, run the before-hook if present (its failure is a hard
stop), filter the target services to module type `"pulumi"`, build one
root task per target service, submit the whole batch to the engine, and
return `result := []` (the source's `return { result: {} }`, independent
of the engine's outcome). -/
def pulumiCommandHandler (spec : PulumiCommandSpec)
    (params : PluginCommandParams) :
    List HandlerEvent × Except PulumiError CommandResult :=
  let serviceNames := toServiceNames params.args
  match params.garden.configGraph with
  | Except.error e => ([HandlerEvent.resolvedGraph], Except.error e)
  | Except.ok graph =>
    let beforeEvents : List HandlerEvent :=
      match spec.beforeFn with
      | some _ => [HandlerEvent.ranBeforeFn]
      | none => []
    let beforeResult : Except PulumiError Unit :=
      match spec.beforeFn with
      | some f => f params.ctx
      | none => Except.ok ()
    match beforeResult with
    | Except.error e =>
      ([HandlerEvent.resolvedGraph] ++ beforeEvents, Except.error e)
    | Except.ok _ =>
      let provider := params.ctx.provider
      let services :=
        (graph.getServices serviceNames).filter fun s => s.module.type == "pulumi"
      match buildTasks params.garden provider graph spec.name
          spec.commandDescription spec.runFn services with
      | (evs, Except.error e) =>
        ([HandlerEvent.resolvedGraph] ++ beforeEvents ++ evs, Except.error e)
      | (evs, Except.ok tasks) =>
        let outcome := params.garden.processTasks tasks
        ([HandlerEvent.resolvedGraph] ++ beforeEvents ++ evs
            ++ [HandlerEvent.submittedBatch (tasks.map PulumiPluginCommandTask.getName) outcome],
          Except.ok { result := [] })

/-- The command record returned by `makePulumiCommand` (the `title`
display closure is omitted). -/
structure PluginCommand where
  name : String
  description : String
  resolveModules : Bool
  handler : PluginCommandParams → List HandlerEvent × Except PulumiError CommandResult

/-- `makePulumiCommand`: wraps one command specification into an
invocable plugin command. -/
def makePulumiCommand (spec : PulumiCommandSpec) : PluginCommand :=
  { name := spec.name
    description :=
      "Runs " ++ spec.commandDescription ++ " for the specified pulumi services, " ++
        "in dependency order (or for all pulumi services if no service names are provided)."
    resolveModules := false
    handler := pulumiCommandHandler spec }

/-- `getPulumiCommands()`. -/
def getPulumiCommands (tool : PulumiTool) : List PluginCommand :=
  (pulumiCommandSpecs tool).map makePulumiCommand

/-! Concrete fixtures used by witnesses and counterexamples: a provider,
three modules (two pulumi, one of another type), their services, a graph
in which `web` directly depends on `db` (pulumi) and `zeta` (container),
and benign tool/garden environments. -/

/-- Fixture provider with concurrency limit 5. -/
def exProvider : PulumiProvider := ⟨⟨5⟩⟩

/-- Fixture pulumi module `web`. -/
def exModuleWeb : GardenModule := ⟨"web", "pulumi", ⟨false⟩⟩

/-- Fixture pulumi module `db`. -/
def exModuleDb : GardenModule := ⟨"db", "pulumi", ⟨false⟩⟩

/-- Fixture non-pulumi module `zeta`. -/
def exModuleZeta : GardenModule := ⟨"zeta", "container", ⟨false⟩⟩

/-- Fixture service of module `web`. -/
def exServiceWeb : GardenService := ⟨"web", exModuleWeb, "v-web"⟩

/-- Fixture service of module `db`. -/
def exServiceDb : GardenService := ⟨"db", exModuleDb, "v-db"⟩

/-- Fixture service of module `zeta`. -/
def exServiceZeta : GardenService := ⟨"zeta", exModuleZeta, "v-zeta"⟩

/-- Fixture graph: `web` depends directly on `db` and `zeta`. -/
def exGraph : ConfigGraph :=
  { modules := [exModuleWeb, exModuleDb, exModuleZeta]
    services := [exServiceWeb, exServiceDb, exServiceZeta]
    deployDeps := fun n => if n = "web" then [exServiceDb, exServiceZeta] else []
    deployDepsRecursive := fun _ => [] }

/-- Fixture run function that succeeds without external calls. -/
def exRunFn : PulumiRunFn := fun _ => ([], Except.ok ())

/-- Fixture `pulumiParams` scoped to the `web` service/module. -/
def exParamsWeb : PulumiParamsWithService :=
  { ctx := ⟨exProvider, exModuleWeb⟩
    provider := exProvider
    module := exModuleWeb
    service := exServiceWeb }

/-- Fixture task targeting `web`. -/
def exTaskWeb : PulumiPluginCommandTask :=
  PulumiPluginCommandTask.construct exGraph exServiceWeb "preview" "pulumi preview"
    exRunFn exParamsWeb

/-- Fixture tool environment in which every external call succeeds. -/
def exTool : PulumiTool :=
  { selectStack := fun _ => Except.ok ()
    previewStack := fun _ => Except.ok ()
    cancelUpdate := fun _ => Except.ok ()
    refreshResources := fun _ => Except.ok ()
    reimportStack := fun _ => Except.ok ()
    deletePulumiService := fun _ => Except.ok ()
    getPreviewDirPath := fun _ => "preview-dir"
    emptyDir := fun _ => Except.ok () }

/-- Fixture garden in which every call succeeds and the engine reports
success for every submitted task. -/
def exGarden : Garden :=
  { configGraph := Except.ok exGraph
    getPluginContext := fun p m => Except.ok ⟨p, m⟩
    processTasks := fun ts => ts.map fun t => (t.getName, true) }

/-- Recogniser for batch-submission events. -/
def HandlerEvent.isSubmittedBatch : HandlerEvent → Bool
  | HandlerEvent.submittedBatch _ _ => true
  | _ => false

/-- Fixture handler parameters: the benign garden, a context carrying the
fixture provider, and no target names. -/
def exParamsAll : PluginCommandParams :=
  { garden := exGarden, ctx := ⟨exProvider, exModuleWeb⟩, args := [] }

/-- The `refresh` entry of the table over the benign fixture tool. -/
def exRefreshSpec : PulumiCommandSpec :=
  refreshCommandSpec exTool

/-- Fixture garden in which plugin-context resolution fails for the `web`
module and succeeds for every other module. -/
def exGardenCtxFailWeb : Garden :=
  { configGraph := Except.ok exGraph
    getPluginContext := fun p m =>
      if m.name = "web" then Except.error ⟨"ctx fail web"⟩ else Except.ok ⟨p, m⟩
    processTasks := fun ts => ts.map fun t => (t.getName, true) }

/-- Fixture tool whose stack selection fails with message `boom-1`. -/
def exToolFail1 : PulumiTool :=
  { exTool with selectStack := fun _ => Except.error ⟨"boom-1"⟩ }

/-- Fixture tool whose stack selection fails with message `boom-2`. -/
def exToolFail2 : PulumiTool :=
  { exTool with selectStack := fun _ => Except.error ⟨"boom-2"⟩ }

/-- Fixture tool whose `emptyDir` call fails, so that the `preview`
before-hook fails. -/
def exToolEmptyDirFail : PulumiTool :=
  { exTool with emptyDir := fun _ => Except.error ⟨"emptyDir fail"⟩ }

/-- The `preview` entry of the table over the tool whose before-hook
fails. -/
def exPreviewSpecFailBefore : PulumiCommandSpec :=
  previewCommandSpec exToolEmptyDirFail

/-- Fixture handler parameters over the garden whose plugin-context
resolution fails for `web` only. -/
def exParamsCtxFail : PluginCommandParams :=
  { garden := exGardenCtxFailWeb, ctx := ⟨exProvider, exModuleWeb⟩, args := [] }

/-- Unfolded form of `resolveDependencies`: the direct deploy
dependencies, filtered to names of pulumi modules, each wrapped by the
constructor with the parent's `pulumiParams` and only `module` replaced. -/
lemma resolveDependencies_eq (t : PulumiPluginCommandTask) :
    t.resolveDependencies
      = ((t.graph.deployDeps t.service.name).filter fun depNode =>
            ((t.graph.modules.filter fun m => m.type == "pulumi").map fun m =>
              m.name).contains depNode.name).map
          fun depService =>
            PulumiPluginCommandTask.construct t.graph depService t.commandName
              t.commandDescription t.runFn
              { t.pulumiParams with module := depService.module } :=
  rfl

/-- Every element of `resolveDependencies` is the constructor applied to
some dependency service, with the parent's command data and the parent's
`pulumiParams` updated only at `module`. -/
lemma exists_dep_of_mem_resolveDependencies {t c : PulumiPluginCommandTask}
    (hc : c ∈ t.resolveDependencies) :
    ∃ d : GardenService,
      c = PulumiPluginCommandTask.construct t.graph d t.commandName
        t.commandDescription t.runFn
        { t.pulumiParams with module := d.module } := by
  rw [resolveDependencies_eq] at hc
  obtain ⟨d, _, rfl⟩ := List.mem_map.mp hc
  exact ⟨d, rfl⟩

/-- C1 (amended): every child task returned by `resolveDependencies`
carries the parent's command name, run function and description; its
`pulumiParams` has the `module` field replaced by the dependency's own
module, while the `ctx`, `service` and `provider` fields are inherited
unchanged from the parent task's `pulumiParams`. -/
theorem resolveDependencies_child_fields (t : PulumiPluginCommandTask)
    (i : Nat) (h : i < t.resolveDependencies.length) :
    (t.resolveDependencies.get ⟨i, h⟩).commandName = t.commandName ∧
    (t.resolveDependencies.get ⟨i, h⟩).commandDescription = t.commandDescription ∧
    (t.resolveDependencies.get ⟨i, h⟩).runFn = t.runFn ∧
    (t.resolveDependencies.get ⟨i, h⟩).pulumiParams.module
      = (t.resolveDependencies.get ⟨i, h⟩).service.module ∧
    (t.resolveDependencies.get ⟨i, h⟩).pulumiParams.ctx = t.pulumiParams.ctx ∧
    (t.resolveDependencies.get ⟨i, h⟩).pulumiParams.service = t.pulumiParams.service ∧
    (t.resolveDependencies.get ⟨i, h⟩).pulumiParams.provider = t.pulumiParams.provider := by
  obtain ⟨d, hd⟩ :=
    exists_dep_of_mem_resolveDependencies (List.get_mem t.resolveDependencies i h)
  rw [hd]
  exact ⟨rfl, rfl, rfl, rfl, rfl, rfl, rfl⟩

/-- Witness for `resolveDependencies_child_fields` at the fixture task. -/
theorem resolveDependencies_child_fields_witness :
    (exTaskWeb.resolveDependencies.get
        ⟨0, by decide⟩).pulumiParams.ctx = exTaskWeb.pulumiParams.ctx ∧
    (exTaskWeb.resolveDependencies.get
        ⟨0, by decide⟩).pulumiParams.service = exTaskWeb.pulumiParams.service :=
  ⟨(resolveDependencies_child_fields exTaskWeb 0 (by decide)).2.2.2.2.1,
    (resolveDependencies_child_fields exTaskWeb 0 (by decide)).2.2.2.2.2.1⟩

/-- C1 (counterexample): in the fixture graph the task for `web` has the
direct pulumi dependency `db`; the returned child task targets service
`db` but its `pulumiParams.service` is still the parent's service `web`
and its `pulumiParams.ctx` is still scoped to module `web` — so the
child's execution-context parameters are not scoped to the dependency's
own service. -/
theorem resolveDependencies_child_params_not_rescoped_cex :
    exTaskWeb.resolveDependencies.map
        (fun c => (c.service.name, c.pulumiParams.service.name,
          c.pulumiParams.ctx.forModule.name))
      = [("db", "web", "web")]
    ∧ ("web" : String) ≠ "db" :=
  ⟨rfl, by decide⟩

/-- C8: `resolveDependencies` is a pure function of the task and its
graph snapshot: two calls on the same task return the same list of child
tasks, equal componentwise in target service, command name, description,
run function and parameters. -/
theorem resolveDependencies_deterministic (t : PulumiPluginCommandTask) :
    t.resolveDependencies = t.resolveDependencies ∧
    List.Forall₂
      (fun a b => a.service = b.service ∧ a.commandName = b.commandName ∧
        a.commandDescription = b.commandDescription ∧ a.runFn = b.runFn ∧
        a.pulumiParams = b.pulumiParams)
      t.resolveDependencies t.resolveDependencies :=
  ⟨rfl, List.forall₂_same.mpr fun _ _ => ⟨rfl, rfl, rfl, rfl, rfl⟩⟩

/-- C3: assuming the graph invariants the source relies on — every pulumi
dependency's module is listed in the graph and named like its service
(the source comment: module names equal service names for pulumi
modules), and no dependency of another module type shares a name with a
listed pulumi module — `resolveDependencies` wraps exactly the direct
deploy dependencies of pulumi module type, one child per dependency, and
the result is insensitive to the recursive dependency relation (the task
itself only looks one hop away, `recursive: false`). -/
theorem resolveDependencies_direct_pulumi_deps (t : PulumiPluginCommandTask)
    (h1 : ∀ d ∈ t.graph.deployDeps t.service.name,
      d.module.type = "pulumi" → d.module ∈ t.graph.modules ∧ d.name = d.module.name)
    (h2 : ∀ d ∈ t.graph.deployDeps t.service.name, ∀ m ∈ t.graph.modules,
      m.type = "pulumi" → d.name = m.name → d.module.type = "pulumi") :
    t.resolveDependencies.map (fun c => c.service)
      = (t.graph.deployDeps t.service.name).filter (fun d => d.module.type == "pulumi")
    ∧ ∀ f : String → List GardenService,
        ({ t with graph :=
            { t.graph with deployDepsRecursive := f } } :
              PulumiPluginCommandTask).resolveDependencies.map (fun c => c.service)
          = t.resolveDependencies.map (fun c => c.service) := by
  constructor
  · rw [resolveDependencies_eq, List.map_map]
    have hfuse :
        ((fun c : PulumiPluginCommandTask => c.service) ∘
          fun depService =>
            PulumiPluginCommandTask.construct t.graph depService t.commandName
              t.commandDescription t.runFn
              { t.pulumiParams with module := depService.module })
          = fun d : GardenService => d := rfl
    rw [hfuse, List.map_id']
    apply List.filter_congr
    intro d hd
    by_cases hdp : d.module.type = "pulumi"
    · obtain ⟨hm, hn⟩ := h1 d hd hdp
      have hmem : d.name ∈ (t.graph.modules.filter fun m => m.type == "pulumi").map
          fun m => m.name :=
        List.mem_map.mpr ⟨d.module, List.mem_filter.mpr ⟨hm, by simp [hdp]⟩, hn.symm⟩
      simp [hdp, hmem]
    · have hnotmem : d.name ∉ (t.graph.modules.filter fun m => m.type == "pulumi").map
          fun m => m.name := by
        intro hmem
        obtain ⟨m, hmf, hmn⟩ := List.mem_map.mp hmem
        obtain ⟨hmm, hmt⟩ := List.mem_filter.mp hmf
        exact hdp (h2 d hd m hmm (by simpa using hmt) hmn.symm)
      simp [hdp, hnotmem]
  · intro f
    rw [resolveDependencies_eq, resolveDependencies_eq, List.map_map, List.map_map]
    rfl

/-- Witness for `resolveDependencies_direct_pulumi_deps` on the fixture
graph: `web` has direct deploy dependencies `db` (pulumi) and `zeta`
(container), and exactly `db` is wrapped. -/
theorem resolveDependencies_direct_pulumi_deps_witness :
    exTaskWeb.resolveDependencies.map (fun c => c.service) = [exServiceDb] :=
  ((resolveDependencies_direct_pulumi_deps exTaskWeb (by decide) (by decide)).1).trans
    (by decide)

/-- C9: every task built by the source constructor — the handler's root
tasks and the children produced by `resolveDependencies` are all built
through it — has `force = false`, its version copied from the target
service's version, and its concurrency limit read from
`pulumiParams.ctx.provider.config.pluginTaskConcurrencyLimit` at
construction time. -/
theorem construct_force_version_concurrencyLimit :
    (∀ (graph : ConfigGraph) (service : GardenService)
        (commandName commandDescription : String) (runFn : PulumiRunFn)
        (pulumiParams : PulumiParamsWithService),
      (PulumiPluginCommandTask.construct graph service commandName
          commandDescription runFn pulumiParams).force = false ∧
      (PulumiPluginCommandTask.construct graph service commandName
          commandDescription runFn pulumiParams).version = service.version ∧
      (PulumiPluginCommandTask.construct graph service commandName
          commandDescription runFn pulumiParams).concurrencyLimit
        = pulumiParams.ctx.provider.config.pluginTaskConcurrencyLimit) ∧
    (∀ (t : PulumiPluginCommandTask) (i : Nat)
        (h : i < t.resolveDependencies.length),
      (t.resolveDependencies.get ⟨i, h⟩).force = false ∧
      (t.resolveDependencies.get ⟨i, h⟩).version
        = (t.resolveDependencies.get ⟨i, h⟩).service.version ∧
      (t.resolveDependencies.get ⟨i, h⟩).concurrencyLimit
        = (t.resolveDependencies.get
            ⟨i, h⟩).pulumiParams.ctx.provider.config.pluginTaskConcurrencyLimit) := by
  constructor
  · intro graph service commandName commandDescription runFn pulumiParams
    exact ⟨rfl, rfl, rfl⟩
  · intro t i h
    obtain ⟨d, hd⟩ :=
      exists_dep_of_mem_resolveDependencies (List.get_mem t.resolveDependencies i h)
    rw [hd]
    exact ⟨rfl, rfl, rfl⟩

/-- Witness for `construct_force_version_concurrencyLimit` at the fixture
task and its first child. -/
theorem construct_force_version_concurrencyLimit_witness :
    exTaskWeb.force = false ∧ exTaskWeb.version = exServiceWeb.version ∧
    (exTaskWeb.resolveDependencies.get ⟨0, by decide⟩).force = false :=
  ⟨(construct_force_version_concurrencyLimit.1 exGraph exServiceWeb "preview"
      "pulumi preview" exRunFn exParamsWeb).1,
    (construct_force_version_concurrencyLimit.1 exGraph exServiceWeb "preview"
      "pulumi preview" exRunFn exParamsWeb).2.1,
    (construct_force_version_concurrencyLimit.2 exTaskWeb 0 (by decide)).1⟩

/-- C6 (amended): `process` first emits the start line tagged with the
target service's name, then performs stack selection, then invokes the
run function; a failure of either is handled identically — the failure
line (whose message carries the elapsed duration, but not the underlying
error) is emitted and the same error is re-raised; on success the success
line with the elapsed duration is emitted and the empty result is
returned. -/
theorem process_lifecycle (t : PulumiPluginCommandTask) (tool : PulumiTool)
    (durationSec : Nat) :
    (∀ e, tool.selectStack t.pulumiParams = Except.error e →
      t.process tool durationSec
        = ⟨[⟨t.service.name, "Running " ++ t.commandDescription, LogStatus.active⟩,
            ⟨t.service.name, "Failed! (took " ++ toString durationSec ++ " sec)",
              LogStatus.error⟩],
          [PulumiEffect.selectStackCall t.pulumiParams.module.name],
          Except.error e⟩) ∧
    (∀ runEffects e, tool.selectStack t.pulumiParams = Except.ok () →
      t.runFn t.pulumiParams = (runEffects, Except.error e) →
      t.process tool durationSec
        = ⟨[⟨t.service.name, "Running " ++ t.commandDescription, LogStatus.active⟩,
            ⟨t.service.name, "Failed! (took " ++ toString durationSec ++ " sec)",
              LogStatus.error⟩],
          PulumiEffect.selectStackCall t.pulumiParams.module.name :: runEffects,
          Except.error e⟩) ∧
    (∀ runEffects, tool.selectStack t.pulumiParams = Except.ok () →
      t.runFn t.pulumiParams = (runEffects, Except.ok ()) →
      t.process tool durationSec
        = ⟨[⟨t.service.name, "Running " ++ t.commandDescription, LogStatus.active⟩,
            ⟨t.service.name, "Success (took " ++ toString durationSec ++ " sec)",
              LogStatus.success⟩],
          PulumiEffect.selectStackCall t.pulumiParams.module.name :: runEffects,
          Except.ok ()⟩) := by
  refine ⟨?_, ?_, ?_⟩
  · intro e hsel
    simp [PulumiPluginCommandTask.process, PulumiPluginCommandTask.getName, hsel]
  · intro runEffects e hsel hrun
    simp [PulumiPluginCommandTask.process, PulumiPluginCommandTask.getName, hsel, hrun]
  · intro runEffects hsel hrun
    simp [PulumiPluginCommandTask.process, PulumiPluginCommandTask.getName, hsel, hrun]

/-- Witness for `process_lifecycle`: the fixture task with a failing
stack selection emits start and failure lines and re-raises the error. -/
theorem process_lifecycle_witness :
    exTaskWeb.process exToolFail1 3
      = ⟨[⟨"web", "Running pulumi preview", LogStatus.active⟩,
          ⟨"web", "Failed! (took 3 sec)", LogStatus.error⟩],
        [PulumiEffect.selectStackCall "web"],
        Except.error ⟨"boom-1"⟩⟩ :=
  (process_lifecycle exTaskWeb exToolFail1 3).1 ⟨"boom-1"⟩ rfl

/-- C6 (counterexample): two runs of the same task that fail stack
selection with different underlying errors emit exactly the same status
lines; the emitted failure line therefore does not include the
underlying error (it carries only the duration), contradicting the claim
that the failure status line includes the underlying error. -/
theorem process_failure_line_lacks_error_cex :
    (exTaskWeb.process exToolFail1 3).lines = (exTaskWeb.process exToolFail2 3).lines
    ∧ (exTaskWeb.process exToolFail1 3).result = Except.error ⟨"boom-1"⟩
    ∧ (exTaskWeb.process exToolFail2 3).result = Except.error ⟨"boom-2"⟩
    ∧ (⟨"boom-1"⟩ : PulumiError) ≠ ⟨"boom-2"⟩ :=
  ⟨rfl, rfl, rfl, by decide⟩

/-- C10: the destroy command's run function performs no deletion and
succeeds when `module.spec.allowDestroy` is unset, and attempts the
deletion exactly when it is set. -/
theorem destroy_runFn_allowDestroy_guard (tool : PulumiTool)
    (params : PulumiParamsWithService) :
    (params.module.spec.allowDestroy = false →
      (destroyCommandSpec tool).runFn params = ([], Except.ok ())) ∧
    (params.module.spec.allowDestroy = true →
      (destroyCommandSpec tool).runFn params
        = ([PulumiEffect.deletePulumiServiceCall params.module.name],
            tool.deletePulumiService params)) := by
  constructor
  · intro h
    simp [destroyCommandSpec, h]
  · intro h
    simp [destroyCommandSpec, h]

/-- Witness for `destroy_runFn_allowDestroy_guard`: the fixture `web`
module has `allowDestroy := false`, so the destroy run function makes no
external call and succeeds. -/
theorem destroy_runFn_allowDestroy_guard_witness :
    (destroyCommandSpec exTool).runFn exParamsWeb = ([], Except.ok ()) :=
  (destroy_runFn_allowDestroy_guard exTool exParamsWeb).1 rfl

/-- If plugin-context resolution succeeds for every target service,
`buildTasks` succeeds, emits one `builtTask` event per service in order,
and the built tasks target exactly those services. -/
lemma buildTasks_ok_of_ctx_ok (garden : Garden) (provider : PulumiProvider)
    (graph : ConfigGraph) (commandName commandDescription : String)
    (runFn : PulumiRunFn) :
    ∀ services : List GardenService,
      (∀ s ∈ services, ∃ c, garden.getPluginContext provider s.module = Except.ok c) →
      ∃ tasks,
        buildTasks garden provider graph commandName commandDescription runFn services
            = (services.map fun s => HandlerEvent.builtTask s.name, Except.ok tasks)
          ∧ tasks.map (fun t => t.service) = services
  | [], _ => ⟨[], rfl, rfl⟩
  | s :: rest, h => by
    obtain ⟨c, hc⟩ := h s (List.mem_cons_self s rest)
    obtain ⟨tasks, htasks, hserv⟩ :=
      buildTasks_ok_of_ctx_ok garden provider graph commandName commandDescription
        runFn rest (fun x hx => h x (List.mem_cons_of_mem s hx))
    refine ⟨PulumiPluginCommandTask.construct graph s commandName commandDescription
        runFn ⟨c, provider, s.module, s⟩ :: tasks, ?_, ?_⟩
    · simp only [buildTasks, hc, htasks, List.map_cons]
    · simp [PulumiPluginCommandTask.construct, hserv]

/-- If plugin-context resolution fails for some target service,
`buildTasks` fails. -/
lemma buildTasks_error_of_ctx_fail (garden : Garden) (provider : PulumiProvider)
    (graph : ConfigGraph) (commandName commandDescription : String)
    (runFn : PulumiRunFn) :
    ∀ services : List GardenService,
      (∃ s ∈ services, (garden.getPluginContext provider s.module).isOk = false) →
      ∃ evs e,
        buildTasks garden provider graph commandName commandDescription runFn services
          = (evs, Except.error e)
  | [], h => by simp at h
  | s :: rest, h => by
    rcases hc : garden.getPluginContext provider s.module with e | c
    · exact ⟨[], e, by simp [buildTasks, hc]⟩
    · obtain ⟨x, hx, hfail⟩ := h
      rcases List.mem_cons.mp hx with rfl | hx'
      · rw [hc] at hfail
        simp [Except.isOk, Except.toBool] at hfail
      · obtain ⟨evs, e, heq⟩ :=
          buildTasks_error_of_ctx_fail garden provider graph commandName
            commandDescription runFn rest ⟨x, hx', hfail⟩
        exact ⟨HandlerEvent.builtTask s.name :: evs, e, by simp [buildTasks, hc, heq]⟩

/-- Every event emitted by `buildTasks` is a `builtTask` event. -/
lemma buildTasks_events_builtTask (garden : Garden) (provider : PulumiProvider)
    (graph : ConfigGraph) (commandName commandDescription : String)
    (runFn : PulumiRunFn) :
    ∀ (services : List GardenService) (ev : HandlerEvent),
      ev ∈ (buildTasks garden provider graph commandName commandDescription runFn
        services).1 →
      ∃ n, ev = HandlerEvent.builtTask n
  | [], ev, h => by simp [buildTasks] at h
  | s :: rest, ev, h => by
    rcases hc : garden.getPluginContext provider s.module with e | c
    · simp only [buildTasks, hc] at h
      simp at h
    · rcases hrest : buildTasks garden provider graph commandName commandDescription
          runFn rest with ⟨evs, res⟩
      rcases res with e | tasks
      · simp only [buildTasks, hc, hrest] at h
        rcases List.mem_cons.mp h with rfl | h'
        · exact ⟨s.name, rfl⟩
        · exact buildTasks_events_builtTask garden provider graph commandName
            commandDescription runFn rest ev (by rw [hrest]; exact h')
      · simp only [buildTasks, hc, hrest] at h
        rcases List.mem_cons.mp h with rfl | h'
        · exact ⟨s.name, rfl⟩
        · exact buildTasks_events_builtTask garden provider graph commandName
            commandDescription runFn rest ev (by rw [hrest]; exact h')

/-- `buildTasks` only reads `getPluginContext` from the garden record:
two gardens agreeing on it build identical tasks. -/
lemma buildTasks_congr_garden (g gg : Garden)
    (hgp : g.getPluginContext = gg.getPluginContext) (provider : PulumiProvider)
    (graph : ConfigGraph) (commandName commandDescription : String)
    (runFn : PulumiRunFn) :
    ∀ services : List GardenService,
      buildTasks g provider graph commandName commandDescription runFn services
        = buildTasks gg provider graph commandName commandDescription runFn services
  | [] => rfl
  | s :: rest => by
    have ih := buildTasks_congr_garden g gg hgp provider graph commandName
      commandDescription runFn rest
    simp only [buildTasks, hgp, ih]

/-- Handler path: the graph snapshot fails to resolve. -/
lemma handler_eq_graph_error (spec : PulumiCommandSpec)
    (params : PluginCommandParams) (e : PulumiError)
    (hg : params.garden.configGraph = Except.error e) :
    pulumiCommandHandler spec params
      = ([HandlerEvent.resolvedGraph], Except.error e) := by
  simp [pulumiCommandHandler, hg]

/-- Handler path: the before-hook is present and fails. -/
lemma handler_eq_before_error (spec : PulumiCommandSpec)
    (params : PluginCommandParams)
    (f : PluginContext → Except PulumiError Unit) (graph : ConfigGraph)
    (e : PulumiError) (hg : params.garden.configGraph = Except.ok graph)
    (hb : spec.beforeFn = some f) (hf : f params.ctx = Except.error e) :
    pulumiCommandHandler spec params
      = ([HandlerEvent.resolvedGraph, HandlerEvent.ranBeforeFn], Except.error e) := by
  simp [pulumiCommandHandler, hg, hb, hf]

/-- Handler path: no before-hook; the outcome is determined by the task
construction loop over the pulumi-filtered target services. -/
lemma handler_eq_build_none (spec : PulumiCommandSpec)
    (params : PluginCommandParams) (graph : ConfigGraph)
    (evs : List HandlerEvent)
    (r : Except PulumiError (List PulumiPluginCommandTask))
    (hg : params.garden.configGraph = Except.ok graph)
    (hb : spec.beforeFn = none)
    (hbt : buildTasks params.garden params.ctx.provider graph spec.name
        spec.commandDescription spec.runFn
        ((graph.getServices (toServiceNames params.args)).filter
          fun s => s.module.type == "pulumi")
      = (evs, r)) :
    pulumiCommandHandler spec params
      = match r with
        | Except.error e => ([HandlerEvent.resolvedGraph] ++ evs, Except.error e)
        | Except.ok tasks =>
          ([HandlerEvent.resolvedGraph] ++ evs
              ++ [HandlerEvent.submittedBatch
                  (tasks.map PulumiPluginCommandTask.getName)
                  (params.garden.processTasks tasks)],
            Except.ok ⟨[]⟩) := by
  rcases r with e | tasks
  · simp only [pulumiCommandHandler, hg, hb, hbt, List.nil_append, List.singleton_append]
  · simp only [pulumiCommandHandler, hg, hb, hbt, List.nil_append, List.singleton_append]

/-- Handler path: the before-hook is present and succeeds; the outcome is
determined by the task construction loop. -/
lemma handler_eq_build_some (spec : PulumiCommandSpec)
    (params : PluginCommandParams)
    (f : PluginContext → Except PulumiError Unit) (graph : ConfigGraph)
    (evs : List HandlerEvent)
    (r : Except PulumiError (List PulumiPluginCommandTask))
    (hg : params.garden.configGraph = Except.ok graph)
    (hb : spec.beforeFn = some f) (hf : f params.ctx = Except.ok ())
    (hbt : buildTasks params.garden params.ctx.provider graph spec.name
        spec.commandDescription spec.runFn
        ((graph.getServices (toServiceNames params.args)).filter
          fun s => s.module.type == "pulumi")
      = (evs, r)) :
    pulumiCommandHandler spec params
      = match r with
        | Except.error e =>
          ([HandlerEvent.resolvedGraph, HandlerEvent.ranBeforeFn] ++ evs,
            Except.error e)
        | Except.ok tasks =>
          ([HandlerEvent.resolvedGraph, HandlerEvent.ranBeforeFn] ++ evs
              ++ [HandlerEvent.submittedBatch
                  (tasks.map PulumiPluginCommandTask.getName)
                  (params.garden.processTasks tasks)],
            Except.ok ⟨[]⟩) := by
  rcases r with e | tasks
  · simp only [pulumiCommandHandler, hg, hb, hf, hbt, List.singleton_append,
      List.cons_append, List.nil_append]
  · simp only [pulumiCommandHandler, hg, hb, hf, hbt, List.singleton_append,
      List.cons_append, List.nil_append]

/-- C7: with a before-hook present and a resolvable graph snapshot, the
handler resolves the graph snapshot exactly once, runs the hook right
after it and before any task construction, and a hook failure propagates
out of the handler with no task built and nothing submitted (the whole
trace is graph resolution followed by the hook). -/
theorem handler_beforeFn_preflight (spec : PulumiCommandSpec)
    (params : PluginCommandParams)
    (f : PluginContext → Except PulumiError Unit) (graph : ConfigGraph)
    (hb : spec.beforeFn = some f)
    (hg : params.garden.configGraph = Except.ok graph) :
    (pulumiCommandHandler spec params).1.take 2
      = [HandlerEvent.resolvedGraph, HandlerEvent.ranBeforeFn] ∧
    (pulumiCommandHandler spec params).1.countP
        (fun ev => ev == HandlerEvent.resolvedGraph) = 1 ∧
    (∀ e, f params.ctx = Except.error e →
      pulumiCommandHandler spec params
        = ([HandlerEvent.resolvedGraph, HandlerEvent.ranBeforeFn],
            Except.error e)) := by
  rcases hf : f params.ctx with e1 | u
  · have hmain := handler_eq_before_error spec params f graph e1 hg hb hf
    refine ⟨?_, ?_, ?_⟩
    · rw [hmain]
      rfl
    · rw [hmain]
      rfl
    · intro e he
      injection he with h2
      rw [← h2]
      exact hmain
  · cases u
    rcases hbt : buildTasks params.garden params.ctx.provider graph spec.name
        spec.commandDescription spec.runFn
        ((graph.getServices (toServiceNames params.args)).filter
          fun s => s.module.type == "pulumi") with ⟨evs, r⟩
    have hcount0 : evs.countP (fun ev => ev == HandlerEvent.resolvedGraph) = 0 := by
      apply List.countP_eq_zero.mpr
      intro a ha
      obtain ⟨n, rfl⟩ := buildTasks_events_builtTask params.garden
        params.ctx.provider graph spec.name spec.commandDescription spec.runFn _
        a (by rw [hbt]; exact ha)
      simp
    rcases r with e | tasks
    · have hmain : pulumiCommandHandler spec params
          = ([HandlerEvent.resolvedGraph, HandlerEvent.ranBeforeFn] ++ evs,
              Except.error e) :=
        handler_eq_build_some spec params f graph evs (Except.error e) hg hb hf hbt
      refine ⟨?_, ?_, ?_⟩
      · rw [hmain]
        rfl
      · rw [hmain]
        simp [List.countP_append, List.countP_cons, hcount0]
      · intro e2 he
        exact absurd he (by simp)
    · have hmain : pulumiCommandHandler spec params
          = ([HandlerEvent.resolvedGraph, HandlerEvent.ranBeforeFn] ++ evs
              ++ [HandlerEvent.submittedBatch
                  (tasks.map PulumiPluginCommandTask.getName)
                  (params.garden.processTasks tasks)],
              Except.ok ⟨[]⟩) :=
        handler_eq_build_some spec params f graph evs (Except.ok tasks) hg hb hf hbt
      refine ⟨?_, ?_, ?_⟩
      · rw [hmain]
        rfl
      · rw [hmain]
        simp [List.countP_append, List.countP_cons, hcount0]
      · intro e2 he
        exact absurd he (by simp)

/-- Witness for `handler_beforeFn_preflight`: the fixture `preview`
command whose before-hook (clearing the preview directory) fails stops
the handler with exactly the graph-resolution and hook events. -/
theorem handler_beforeFn_preflight_witness :
    pulumiCommandHandler exPreviewSpecFailBefore exParamsAll
      = ([HandlerEvent.resolvedGraph, HandlerEvent.ranBeforeFn],
          Except.error ⟨"emptyDir fail"⟩) :=
  (handler_beforeFn_preflight exPreviewSpecFailBefore exParamsAll
    (fun ctx => exToolEmptyDirFail.emptyDir (exToolEmptyDirFail.getPreviewDirPath ctx))
    exGraph rfl rfl).2.2 ⟨"emptyDir fail"⟩ rfl

/-- C2 (amended): if plugin-context resolution fails for any targeted
pulumi service, the whole handler invocation fails and no batch is ever
submitted to the engine — the other services' tasks are not executed
either, contrary to per-service isolation. -/
theorem handler_ctx_failure_aborts_batch (spec : PulumiCommandSpec)
    (params : PluginCommandParams) (graph : ConfigGraph)
    (hg : params.garden.configGraph = Except.ok graph)
    (hfail : ∃ s ∈ (graph.getServices (toServiceNames params.args)).filter
        (fun s => s.module.type == "pulumi"),
      (params.garden.getPluginContext params.ctx.provider s.module).isOk = false) :
    (∃ e, (pulumiCommandHandler spec params).2 = Except.error e) ∧
    (pulumiCommandHandler spec params).1.countP HandlerEvent.isSubmittedBatch = 0 := by
  obtain ⟨evs, e, hbt⟩ := buildTasks_error_of_ctx_fail params.garden
    params.ctx.provider graph spec.name spec.commandDescription spec.runFn _ hfail
  have hevs0 : evs.countP HandlerEvent.isSubmittedBatch = 0 := by
    apply List.countP_eq_zero.mpr
    intro a ha
    obtain ⟨n, rfl⟩ := buildTasks_events_builtTask params.garden
      params.ctx.provider graph spec.name spec.commandDescription spec.runFn _
      a (by rw [hbt]; exact ha)
    simp [HandlerEvent.isSubmittedBatch]
  rcases hbspec : spec.beforeFn with _ | f
  · have hmain : pulumiCommandHandler spec params
        = ([HandlerEvent.resolvedGraph] ++ evs, Except.error e) :=
      handler_eq_build_none spec params graph evs (Except.error e) hg hbspec hbt
    constructor
    · exact ⟨e, by rw [hmain]⟩
    · rw [hmain]
      simp [List.countP_append, List.countP_cons, HandlerEvent.isSubmittedBatch, hevs0]
  · rcases hf : f params.ctx with e1 | u
    · have hmain := handler_eq_before_error spec params f graph e1 hg hbspec hf
      constructor
      · exact ⟨e1, by rw [hmain]⟩
      · rw [hmain]
        rfl
    · cases u
      have hmain : pulumiCommandHandler spec params
          = ([HandlerEvent.resolvedGraph, HandlerEvent.ranBeforeFn] ++ evs,
              Except.error e) :=
        handler_eq_build_some spec params f graph evs (Except.error e) hg hbspec hf hbt
      constructor
      · exact ⟨e, by rw [hmain]⟩
      · rw [hmain]
        simp [List.countP_append, List.countP_cons, HandlerEvent.isSubmittedBatch, hevs0]

/-- Witness for `handler_ctx_failure_aborts_batch` at the fixture garden
whose context resolution fails for `web`. -/
theorem handler_ctx_failure_aborts_batch_witness :
    ∃ e, (pulumiCommandHandler exRefreshSpec exParamsCtxFail).2 = Except.error e :=
  (handler_ctx_failure_aborts_batch exRefreshSpec exParamsCtxFail exGraph rfl
    ⟨exServiceWeb, by decide, rfl⟩).1

/-- C2 (counterexample): in the fixture with two pulumi target services
`web` and `db`, context resolution fails for `web` only — `db`'s context
resolution succeeds — yet the handler aborts with `web`'s error after the
graph-resolution event: no task for `db` is built or submitted, so the
other services do not proceed independently. -/
theorem handler_ctx_failure_not_isolated_cex :
    pulumiCommandHandler exRefreshSpec exParamsCtxFail
      = ([HandlerEvent.resolvedGraph], Except.error ⟨"ctx fail web"⟩)
    ∧ exGardenCtxFailWeb.getPluginContext exProvider exModuleDb
        = Except.ok ⟨exProvider, exModuleDb⟩
    ∧ ([HandlerEvent.resolvedGraph].countP HandlerEvent.isSubmittedBatch) = 0 :=
  ⟨rfl, rfl, rfl⟩

/-- C4 (amended): every handler invocation submits at most one batch to
the engine — exactly one when the handler succeeds, none when it fails —
but the value returned to the caller is the constant empty result
(`result: {}`), not the engine's aggregate per-task outcome: the returned
value does not depend on the engine at all. -/
theorem handler_single_batch_and_constant_result (spec : PulumiCommandSpec)
    (params : PluginCommandParams) :
    (∀ res, (pulumiCommandHandler spec params).2 = Except.ok res →
      res.result = [] ∧
      (pulumiCommandHandler spec params).1.countP
        HandlerEvent.isSubmittedBatch = 1) ∧
    (∀ e, (pulumiCommandHandler spec params).2 = Except.error e →
      (pulumiCommandHandler spec params).1.countP
        HandlerEvent.isSubmittedBatch = 0) ∧
    (∀ engine : List PulumiPluginCommandTask → EngineOutcome,
      (pulumiCommandHandler spec
          { params with garden := { params.garden with processTasks := engine } }).2
        = (pulumiCommandHandler spec params).2) := by
  rcases hg : params.garden.configGraph with e0 | graph
  · have hmain := handler_eq_graph_error spec params e0 hg
    refine ⟨?_, ?_, ?_⟩
    · intro res hres
      rw [hmain] at hres
      exact absurd hres (by simp)
    · intro e he
      rw [hmain]
      rfl
    · intro engine
      rw [handler_eq_graph_error spec
        { params with garden := { params.garden with processTasks := engine } }
        e0 hg, hmain]
  · rcases hbspec : spec.beforeFn with _ | f
    · rcases hbt : buildTasks params.garden params.ctx.provider graph spec.name
          spec.commandDescription spec.runFn
          ((graph.getServices (toServiceNames params.args)).filter
            fun s => s.module.type == "pulumi") with ⟨evs, r⟩
      have hevs0 : evs.countP HandlerEvent.isSubmittedBatch = 0 := by
        apply List.countP_eq_zero.mpr
        intro a ha
        obtain ⟨n, rfl⟩ := buildTasks_events_builtTask params.garden
          params.ctx.provider graph spec.name spec.commandDescription spec.runFn _
          a (by rw [hbt]; exact ha)
        simp [HandlerEvent.isSubmittedBatch]
      rcases r with e | tasks
      · have hmain : pulumiCommandHandler spec params
            = ([HandlerEvent.resolvedGraph] ++ evs, Except.error e) :=
          handler_eq_build_none spec params graph evs (Except.error e) hg hbspec hbt
        refine ⟨?_, ?_, ?_⟩
        · intro res hres
          rw [hmain] at hres
          exact absurd hres (by simp)
        · intro e2 he
          rw [hmain]
          simp [List.countP_append, List.countP_cons,
            HandlerEvent.isSubmittedBatch, hevs0]
        · intro engine
          have hbt2 : buildTasks { params.garden with processTasks := engine }
              params.ctx.provider graph spec.name spec.commandDescription spec.runFn
              ((graph.getServices (toServiceNames params.args)).filter
                fun s => s.module.type == "pulumi") = (evs, Except.error e) :=
            (buildTasks_congr_garden { params.garden with processTasks := engine }
              params.garden rfl params.ctx.provider graph spec.name
              spec.commandDescription spec.runFn _).trans hbt
          have hmain2 : pulumiCommandHandler spec
              { params with garden := { params.garden with processTasks := engine } }
                = ([HandlerEvent.resolvedGraph] ++ evs, Except.error e) :=
            handler_eq_build_none spec
              { params with garden := { params.garden with processTasks := engine } } graph evs (Except.error e) hg hbspec hbt2
          rw [hmain2, hmain]
      · have hmain : pulumiCommandHandler spec params
            = ([HandlerEvent.resolvedGraph] ++ evs
                ++ [HandlerEvent.submittedBatch
                    (tasks.map PulumiPluginCommandTask.getName)
                    (params.garden.processTasks tasks)],
              Except.ok ⟨[]⟩) :=
          handler_eq_build_none spec params graph evs (Except.ok tasks) hg hbspec hbt
        refine ⟨?_, ?_, ?_⟩
        · intro res hres
          rw [hmain] at hres
          have h2 : Except.ok (CommandResult.mk []) = Except.ok res := hres
          injection h2 with h3
          constructor
          · rw [← h3]
          · rw [hmain]
            simp [List.countP_append, List.countP_cons, List.countP_nil,
              HandlerEvent.isSubmittedBatch, hevs0]
        · intro e2 he
          rw [hmain] at he
          exact absurd he (by simp)
        · intro engine
          have hbt2 : buildTasks { params.garden with processTasks := engine }
              params.ctx.provider graph spec.name spec.commandDescription spec.runFn
              ((graph.getServices (toServiceNames params.args)).filter
                fun s => s.module.type == "pulumi") = (evs, Except.ok tasks) :=
            (buildTasks_congr_garden { params.garden with processTasks := engine }
              params.garden rfl params.ctx.provider graph spec.name
              spec.commandDescription spec.runFn _).trans hbt
          have hmain2 : pulumiCommandHandler spec
              { params with garden := { params.garden with processTasks := engine } }
                = ([HandlerEvent.resolvedGraph] ++ evs
                    ++ [HandlerEvent.submittedBatch
                        (tasks.map PulumiPluginCommandTask.getName)
                        (engine tasks)],
                  Except.ok ⟨[]⟩) :=
            handler_eq_build_none spec
              { params with garden := { params.garden with processTasks := engine } } graph evs (Except.ok tasks) hg hbspec hbt2
          rw [hmain2, hmain]
    · rcases hf : f params.ctx with e1 | u
      · have hmain := handler_eq_before_error spec params f graph e1 hg hbspec hf
        refine ⟨?_, ?_, ?_⟩
        · intro res hres
          rw [hmain] at hres
          exact absurd hres (by simp)
        · intro e he
          rw [hmain]
          rfl
        · intro engine
          rw [handler_eq_before_error spec
            { params with garden := { params.garden with processTasks := engine } }
            f graph e1 hg hbspec hf, hmain]
      · cases u
        rcases hbt : buildTasks params.garden params.ctx.provider graph spec.name
            spec.commandDescription spec.runFn
            ((graph.getServices (toServiceNames params.args)).filter
              fun s => s.module.type == "pulumi") with ⟨evs, r⟩
        have hevs0 : evs.countP HandlerEvent.isSubmittedBatch = 0 := by
          apply List.countP_eq_zero.mpr
          intro a ha
          obtain ⟨n, rfl⟩ := buildTasks_events_builtTask params.garden
            params.ctx.provider graph spec.name spec.commandDescription spec.runFn _
            a (by rw [hbt]; exact ha)
          simp [HandlerEvent.isSubmittedBatch]
        rcases r with e | tasks
        · have hmain : pulumiCommandHandler spec params
              = ([HandlerEvent.resolvedGraph, HandlerEvent.ranBeforeFn] ++ evs,
                  Except.error e) :=
            handler_eq_build_some spec params f graph evs (Except.error e) hg
              hbspec hf hbt
          refine ⟨?_, ?_, ?_⟩
          · intro res hres
            rw [hmain] at hres
            exact absurd hres (by simp)
          · intro e2 he
            rw [hmain]
            simp [List.countP_append, List.countP_cons,
              HandlerEvent.isSubmittedBatch, hevs0]
          · intro engine
            have hbt2 : buildTasks { params.garden with processTasks := engine }
                params.ctx.provider graph spec.name spec.commandDescription
                spec.runFn
                ((graph.getServices (toServiceNames params.args)).filter
                  fun s => s.module.type == "pulumi") = (evs, Except.error e) :=
              (buildTasks_congr_garden { params.garden with processTasks := engine }
                params.garden rfl params.ctx.provider graph spec.name
                spec.commandDescription spec.runFn _).trans hbt
            have hmain2 : pulumiCommandHandler spec
                { params with garden := { params.garden with processTasks := engine } }
                  = ([HandlerEvent.resolvedGraph, HandlerEvent.ranBeforeFn] ++ evs,
                      Except.error e) :=
              handler_eq_build_some spec
              { params with garden := { params.garden with processTasks := engine } } f graph evs (Except.error e) hg hbspec
                hf hbt2
            rw [hmain2, hmain]
        · have hmain : pulumiCommandHandler spec params
              = ([HandlerEvent.resolvedGraph, HandlerEvent.ranBeforeFn] ++ evs
                  ++ [HandlerEvent.submittedBatch
                      (tasks.map PulumiPluginCommandTask.getName)
                      (params.garden.processTasks tasks)],
                Except.ok ⟨[]⟩) :=
            handler_eq_build_some spec params f graph evs (Except.ok tasks) hg
              hbspec hf hbt
          refine ⟨?_, ?_, ?_⟩
          · intro res hres
            rw [hmain] at hres
            have h2 : Except.ok (CommandResult.mk []) = Except.ok res := hres
            injection h2 with h3
            constructor
            · rw [← h3]
            · rw [hmain]
              simp [List.countP_append, List.countP_cons, List.countP_nil,
                HandlerEvent.isSubmittedBatch, hevs0]
          · intro e2 he
            rw [hmain] at he
            exact absurd he (by simp)
          · intro engine
            have hbt2 : buildTasks { params.garden with processTasks := engine }
                params.ctx.provider graph spec.name spec.commandDescription
                spec.runFn
                ((graph.getServices (toServiceNames params.args)).filter
                  fun s => s.module.type == "pulumi") = (evs, Except.ok tasks) :=
              (buildTasks_congr_garden { params.garden with processTasks := engine }
                params.garden rfl params.ctx.provider graph spec.name
                spec.commandDescription spec.runFn _).trans hbt
            have hmain2 : pulumiCommandHandler spec
                { params with garden := { params.garden with processTasks := engine } }
                  = ([HandlerEvent.resolvedGraph, HandlerEvent.ranBeforeFn] ++ evs
                      ++ [HandlerEvent.submittedBatch
                          (tasks.map PulumiPluginCommandTask.getName)
                          (engine tasks)],
                    Except.ok ⟨[]⟩) :=
              handler_eq_build_some spec
              { params with garden := { params.garden with processTasks := engine } } f graph evs (Except.ok tasks) hg hbspec
                hf hbt2
            rw [hmain2, hmain]

/-- Witness for `handler_single_batch_and_constant_result` at the benign
fixture invocation: the handler succeeds with the empty result and its
trace carries exactly one batch submission. -/
theorem handler_single_batch_and_constant_result_witness :
    (⟨[]⟩ : CommandResult).result = [] ∧
    (pulumiCommandHandler exRefreshSpec exParamsAll).1.countP
      HandlerEvent.isSubmittedBatch = 1 :=
  (handler_single_batch_and_constant_result exRefreshSpec exParamsAll).1 ⟨[]⟩ rfl

/-- C4 (counterexample): in the fixture invocation the engine's aggregate
outcome for the submitted batch is success for `web` and `db`, but the
handler returns the empty result `result := []`, which differs from that
aggregate — so the handler does not return the engine's per-task
outcome. -/
theorem handler_returns_empty_not_engine_outcome_cex :
    pulumiCommandHandler exRefreshSpec exParamsAll
      = ([HandlerEvent.resolvedGraph, HandlerEvent.builtTask "web",
          HandlerEvent.builtTask "db",
          HandlerEvent.submittedBatch ["web", "db"]
            [("web", true), ("db", true)]],
        Except.ok ⟨[]⟩)
    ∧ ([] : EngineOutcome) ≠ [("web", true), ("db", true)] :=
  ⟨rfl, by decide⟩

/-- C5: with the graph resolved, the before-hook absent or succeeding,
and context resolution succeeding for the targets, the handler builds and
submits (in one batch, without error) exactly one root task per service
of module type `"pulumi"` among the targets: all pulumi services when no
names are given, and the named pulumi services otherwise — a named
service of another module type is silently excluded (no task, no error).
Under distinct service names each target occurs exactly once. -/
theorem handler_target_selection (spec : PulumiCommandSpec)
    (params : PluginCommandParams) (graph : ConfigGraph)
    (hg : params.garden.configGraph = Except.ok graph)
    (hb : spec.beforeFn = none ∨
      ∃ f, spec.beforeFn = some f ∧ f params.ctx = Except.ok ())
    (hctx : ∀ s ∈ (graph.getServices (toServiceNames params.args)).filter
        (fun s => s.module.type == "pulumi"),
      ∃ c, params.garden.getPluginContext params.ctx.provider s.module
        = Except.ok c)
    (hnodup : (graph.services.map fun s => s.name).Nodup) :
    (∃ outcome pre,
      pulumiCommandHandler spec params
        = (pre ++ [HandlerEvent.submittedBatch
            (((graph.getServices (toServiceNames params.args)).filter
                (fun s => s.module.type == "pulumi")).map fun s => s.name)
            outcome],
          Except.ok ⟨[]⟩)) ∧
    (toServiceNames params.args = none →
      (graph.getServices (toServiceNames params.args)).filter
          (fun s => s.module.type == "pulumi")
        = graph.services.filter fun s => s.module.type == "pulumi") ∧
    (∀ names, toServiceNames params.args = some names →
      (graph.getServices (toServiceNames params.args)).filter
          (fun s => s.module.type == "pulumi")
        = (graph.services.filter fun s => names.contains s.name).filter
            fun s => s.module.type == "pulumi") ∧
    (((graph.getServices (toServiceNames params.args)).filter
        (fun s => s.module.type == "pulumi")).map fun s => s.name).Nodup := by
  obtain ⟨tasks, hbt, hserv⟩ := buildTasks_ok_of_ctx_ok params.garden
    params.ctx.provider graph spec.name spec.commandDescription spec.runFn _ hctx
  have hnames : tasks.map PulumiPluginCommandTask.getName
      = ((graph.getServices (toServiceNames params.args)).filter
          (fun s => s.module.type == "pulumi")).map fun s => s.name := by
    rw [← hserv, List.map_map]
    rfl
  refine ⟨?_, ?_, ?_, ?_⟩
  · rcases hb with hbnone | ⟨f, hbsome, hfok⟩
    · have hmain : pulumiCommandHandler spec params
          = ([HandlerEvent.resolvedGraph]
              ++ (((graph.getServices (toServiceNames params.args)).filter
                  (fun s => s.module.type == "pulumi")).map
                    fun s => HandlerEvent.builtTask s.name)
              ++ [HandlerEvent.submittedBatch
                  (tasks.map PulumiPluginCommandTask.getName)
                  (params.garden.processTasks tasks)],
            Except.ok ⟨[]⟩) :=
        handler_eq_build_none spec params graph _ (Except.ok tasks) hg hbnone hbt
      refine ⟨params.garden.processTasks tasks,
        [HandlerEvent.resolvedGraph]
          ++ (((graph.getServices (toServiceNames params.args)).filter
              (fun s => s.module.type == "pulumi")).map
                fun s => HandlerEvent.builtTask s.name), ?_⟩
      rw [hmain, hnames, List.append_assoc]
    · have hmain : pulumiCommandHandler spec params
          = ([HandlerEvent.resolvedGraph, HandlerEvent.ranBeforeFn]
              ++ (((graph.getServices (toServiceNames params.args)).filter
                  (fun s => s.module.type == "pulumi")).map
                    fun s => HandlerEvent.builtTask s.name)
              ++ [HandlerEvent.submittedBatch
                  (tasks.map PulumiPluginCommandTask.getName)
                  (params.garden.processTasks tasks)],
            Except.ok ⟨[]⟩) :=
        handler_eq_build_some spec params f graph _ (Except.ok tasks) hg hbsome
          hfok hbt
      refine ⟨params.garden.processTasks tasks,
        [HandlerEvent.resolvedGraph, HandlerEvent.ranBeforeFn]
          ++ (((graph.getServices (toServiceNames params.args)).filter
              (fun s => s.module.type == "pulumi")).map
                fun s => HandlerEvent.builtTask s.name), ?_⟩
      rw [hmain, hnames, List.append_assoc]
  · intro h
    rw [h]
    rfl
  · intro names h
    rw [h]
    rfl
  · have hsub : ((graph.getServices (toServiceNames params.args)).filter
        (fun s => s.module.type == "pulumi")).Sublist graph.services := by
      cases h : toServiceNames params.args with
      | none =>
        exact List.filter_sublist _
      | some names =>
        have h2 : (graph.services.filter
            fun s => names.contains s.name).Sublist graph.services :=
          List.filter_sublist _
        exact List.Sublist.trans (List.filter_sublist _) h2
    exact List.Nodup.sublist (List.Sublist.map (fun s => s.name) hsub) hnodup

/-- Witness for `handler_target_selection`: in the fixture graph (pulumi
services `web`, `db`; container service `zeta`), the no-names invocation
submits exactly the batch `web`, `db`. -/
theorem handler_target_selection_witness :
    ∃ outcome pre,
      pulumiCommandHandler exRefreshSpec exParamsAll
        = (pre ++ [HandlerEvent.submittedBatch ["web", "db"] outcome],
            Except.ok ⟨[]⟩) := by
  obtain ⟨outcome, pre, h⟩ := (handler_target_selection exRefreshSpec exParamsAll
    exGraph rfl (Or.inl rfl) (fun s _ => ⟨_, rfl⟩) (by decide)).1
  exact ⟨outcome, pre, h⟩
